import Mathlib

/-!
Verification of the Alpha-Rocket telemetry logger (src/Alpha-Rocket.py).

The numeric pipeline (altitude conversion, complementary filter, tilt from
accelerometer) is embedded over the real numbers: CircuitPython float
expressions are modelled by the corresponding exact real expressions.
The CSV formatting pipeline is embedded over the rationals (every binary
float is a rational, and the `.2f` / `.3f` format consumes that rational),
and the write/flush counter over the naturals.
-/

namespace AlphaRocket

/-- Model of the math library's `atan2(y, x)` (two-argument arctangent), as
called by `math.atan2` in the source: the angle of the point `(x, y)`, in
`(-pi, pi]`, with `atan2 0 0 = 0` per the standard atan2 contract. -/
noncomputable def atan2 (y x : ℝ) : ℝ :=
  if 0 < x then Real.arctan (y / x)
  else if x < 0 then
    (if 0 ≤ y then Real.arctan (y / x) + Real.pi else Real.arctan (y / x) - Real.pi)
  else if 0 < y then Real.pi / 2
  else if y < 0 then -(Real.pi / 2)
  else 0

/-- Model of the math library's `math.degrees`: radians to degrees. -/
noncomputable def degrees (x : ℝ) : ℝ :=
  x * (180 / Real.pi)

/-- Embedding of `accel_angles_deg` (src line 47-50): accelerometer-only
roll/pitch estimate in degrees. -/
noncomputable def accel_angles_deg (ax ay az : ℝ) : ℝ × ℝ :=
  (degrees (atan2 ay az),
   degrees (atan2 (-ax) (Real.sqrt (ay * ay + az * az))))

/-- Embedding of the blend weight `alpha = 0.98` (src line 85). -/
noncomputable def alpha : ℝ := 0.98

/-- Embedding of the complementary-filter update, src lines 84-87:
`roll = alpha * (roll + gx * dt) + (1 - alpha) * roll_acc` and likewise for
pitch, with `(roll_acc, pitch_acc) = accel_angles_deg ax ay az`. -/
noncomputable def filter_update (roll pitch ax ay az gx gy dt : ℝ) : ℝ × ℝ :=
  let racc := accel_angles_deg ax ay az
  (alpha * (roll + gx * dt) + (1 - alpha) * racc.1,
   alpha * (pitch + gy * dt) + (1 - alpha) * racc.2)

/-- Embedding of the altitude conversion, src line 81:
`alt_m = 44330.0 * (1.0 - pow(p / p0, 1.0 / 5.255))`, with float power
modelled by real (rpow) power. -/
noncomputable def alt_m (p p0 : ℝ) : ℝ :=
  44330.0 * (1.0 - (p / p0) ^ ((1.0 : ℝ) / 5.255))

/-- Embedding of src line 81 keeping the partiality of the float operations:
in CircuitPython `p / p0` raises `ZeroDivisionError` when `p0 == 0`, and
`pow(b, e)` with negative base `b` and fractional exponent `e` raises
(non-real result), aborting the loop. `none` models the raised exception. -/
noncomputable def alt_mChecked (p p0 : ℝ) : Option ℝ :=
  if p0 = 0 then none
  else if 0 ≤ p / p0 then some (44330.0 * (1.0 - (p / p0) ^ ((1.0 : ℝ) / 5.255)))
  else none

/-- Embedding of the startup sequence, src lines 52-65: capture `p0` from the
first pressure reading and seed the attitude state from one accelerometer
reading. The source performs no validation whatsoever on the captured
baseline, so startup never aborts: `none` (the abort outcome) is never
returned, for any reading including `p0 <= 0`. -/
noncomputable def startup (pressure0 ax ay az : ℝ) : Option (ℝ × (ℝ × ℝ)) :=
  some (pressure0, accel_angles_deg ax ay az)

/- ------------------------------------------------------------------ -/
/- Helper lemmas                                                      -/
/- ------------------------------------------------------------------ -/

lemma atan2_zero_zero : atan2 0 0 = 0 := by
  simp [atan2]

lemma atan2_zero_pos {x : ℝ} (hx : 0 < x) : atan2 0 x = 0 := by
  simp [atan2, hx]

lemma degrees_zero : degrees 0 = 0 := by
  simp [degrees]

lemma accel_angles_deg_level : accel_angles_deg 0 0 1 = (0, 0) := by
  have h1 : atan2 0 1 = 0 := atan2_zero_pos one_pos
  have h2 : Real.sqrt (0 * 0 + 1 * 1) = 1 := by
    norm_num
  unfold accel_angles_deg
  rw [neg_zero, h2, h1, degrees_zero]

lemma ratio_pow_lb :
    ((977695 : ℝ) / 1000000) ^ (1051 : ℕ) ≤ ((1200 : ℝ) / 1351) ^ (200 : ℕ) := by
  rw [div_pow, div_pow, div_le_div_iff₀ (by positivity) (by positivity)]
  norm_num

lemma ratio_pow_ub :
    ((1200 : ℝ) / 1351) ^ (200 : ℕ) ≤ ((977701 : ℝ) / 1000000) ^ (1051 : ℕ) := by
  rw [div_pow, div_pow, div_le_div_iff₀ (by positivity) (by positivity)]
  norm_num

lemma rpow_pow_key :
    (((1200 : ℝ) / 1351) ^ ((200 : ℝ) / 1051)) ^ (1051 : ℕ)
      = ((1200 : ℝ) / 1351) ^ (200 : ℕ) := by
  rw [← Real.rpow_mul_natCast (by norm_num : (0:ℝ) ≤ 1200/1351) ((200:ℝ)/1051) 1051]
  rw [show ((200 : ℝ) / 1051) * ((1051 : ℕ) : ℝ) = ((200 : ℕ) : ℝ) by push_cast; norm_num]
  exact Real.rpow_natCast _ 200

lemma x_lb :
    (977695 : ℝ) / 1000000 ≤ ((1200 : ℝ) / 1351) ^ ((200 : ℝ) / 1051) := by
  have h : ((977695 : ℝ) / 1000000) ^ (1051 : ℕ)
      ≤ (((1200 : ℝ) / 1351) ^ ((200 : ℝ) / 1051)) ^ (1051 : ℕ) := by
    rw [rpow_pow_key]
    exact ratio_pow_lb
  exact le_of_pow_le_pow_left₀ (by norm_num) (Real.rpow_nonneg (by norm_num) _) h

lemma x_ub :
    ((1200 : ℝ) / 1351) ^ ((200 : ℝ) / 1051) ≤ (977701 : ℝ) / 1000000 := by
  have h : (((1200 : ℝ) / 1351) ^ ((200 : ℝ) / 1051)) ^ (1051 : ℕ)
      ≤ ((977701 : ℝ) / 1000000) ^ (1051 : ℕ) := by
    rw [rpow_pow_key]
    exact ratio_pow_ub
  exact le_of_pow_le_pow_left₀ (by norm_num) (by norm_num) h

lemma alt_m_900 :
    alt_m 900 1013.25 = 44330 * (1 - ((1200 : ℝ) / 1351) ^ ((200 : ℝ) / 1051)) := by
  unfold alt_m
  rw [show (900 : ℝ) / 1013.25 = 1200 / 1351 by norm_num,
      show (1.0 : ℝ) / 5.255 = (200 : ℝ) / 1051 by norm_num]
  norm_num

/- ------------------------------------------------------------------ -/
/- C1                                                                  -/
/- ------------------------------------------------------------------ -/

/-- C1 counterexample: at `p0 = 1013.25` and `p = 900.0` the altitude
computation does not return a value within `0.5 m` of `1000.8 m`; it returns
about `988.65 m`. -/
theorem C1_regression_value_false : ¬ (|alt_m 900 1013.25 - 1000.8| ≤ 0.5) := by
  intro hc
  rw [alt_m_900, abs_le] at hc
  have h := x_lb
  have h1 := hc.1
  linarith

/-- C1 amended: for `p, p0 > 0` the altitude computation returns
`44330.0 * (1 - (p/p0)^(1/5.255))` meters; for `p = p0` it returns exactly
`0.0`; and for `p0 = 1013.25`, `p = 900.0` it returns approximately
`988.6 m`, within `0.5 m`. -/
theorem C1_altitude (p p0 : ℝ) (hp : 0 < p) (hp0 : 0 < p0) :
    alt_m p p0 = 44330.0 * (1 - (p / p0) ^ ((1 : ℝ) / 5.255)) ∧
    alt_m p0 p0 = 0 ∧
    |alt_m 900 1013.25 - 988.6| ≤ 0.5 := by
  refine ⟨by unfold alt_m; norm_num, ?_, ?_⟩
  · unfold alt_m
    rw [div_self (ne_of_gt hp0), Real.one_rpow]
    ring
  · rw [alt_m_900, abs_le]
    constructor
    · have h := x_ub
      linarith
    · have h := x_lb
      linarith

/-- C1 witness: the amended altitude theorem instantiated at `p = 2`,
`p0 = 1`. -/
theorem C1_altitude_witness :
    (0 : ℝ) < 2 ∧ (0 : ℝ) < 1 ∧
    (alt_m 2 1 = 44330.0 * (1 - ((2 : ℝ) / 1) ^ ((1 : ℝ) / 5.255)) ∧
     alt_m 1 1 = 0 ∧
     |alt_m 900 1013.25 - 988.6| ≤ 0.5) :=
  ⟨by norm_num, by norm_num, C1_altitude 2 1 (by norm_num) (by norm_num)⟩

/- ------------------------------------------------------------------ -/
/- C3, C4, C5, C7                                                     -/
/- ------------------------------------------------------------------ -/

/-- C3: one filter update returns
`roll = 0.98 * (prev_roll + gx * dt) + (1 - 0.98) * roll_acc` and
`pitch = 0.98 * (prev_pitch + gy * dt) + (1 - 0.98) * pitch_acc`, where
`(roll_acc, pitch_acc)` is the accelerometer-only tilt estimate. -/
theorem C3_filter_update_formula (prev_roll prev_pitch ax ay az gx gy dt : ℝ) :
    (filter_update prev_roll prev_pitch ax ay az gx gy dt).1
      = 0.98 * (prev_roll + gx * dt) + (1 - 0.98) * (accel_angles_deg ax ay az).1 ∧
    (filter_update prev_roll prev_pitch ax ay az gx gy dt).2
      = 0.98 * (prev_pitch + gy * dt) + (1 - 0.98) * (accel_angles_deg ax ay az).2 := by
  constructor <;> simp [filter_update, alpha]

/-- C4: the accelerometer tilt operation returns
`roll = degrees (atan2 ay az)` and
`pitch = degrees (atan2 (-ax) (sqrt (ay^2 + az^2)))`; and when
`ay = 0` and `az = 0` the roll component is `0` (atan2 contract), not an
error. -/
theorem C4_accel_angles (ax ay az : ℝ) :
    accel_angles_deg ax ay az
      = (degrees (atan2 ay az), degrees (atan2 (-ax) (Real.sqrt (ay * ay + az * az)))) ∧
    (accel_angles_deg ax 0 0).1 = 0 := by
  refine ⟨rfl, ?_⟩
  unfold accel_angles_deg
  rw [atan2_zero_zero, degrees_zero]

/-- C5 counterexample: with the fixed blend weight `alpha = 0.98` of the
source, the gyro-to-accelerometer weight ratio `alpha / (1 - alpha)` is not
nine eighths. -/
theorem C5_ratio_not_nine_eighths : ¬ (alpha / (1 - alpha) = 9 / 8) := by
  unfold alpha
  norm_num

/-- C5 amended: the ratio of the weight given to the gyro-integrated value to
the weight given to the accelerometer estimate is forty-nine to one:
`alpha / (1 - alpha) = 49` with `alpha = 0.98`. -/
theorem C5_ratio_forty_nine : alpha / (1 - alpha) = 49 := by
  unfold alpha
  norm_num

/-- C7 counterexample: with gyro contribution zeroed (`gx = gy = 0`,
`dt = 0`), one filter update does not leave the state unchanged in general:
from state `(1, 1)` with static accelerometer input `(0, 0, 1)` the update
moves the state (to `(0.98, 0.98)`), so it is not `(1, 1)`. -/
theorem C7_update_moves_state : filter_update 1 1 0 0 1 0 0 0 ≠ (1, 1) := by
  intro h
  have h1 := congrArg Prod.fst h
  rw [show (filter_update 1 1 0 0 1 0 0 0).1
        = alpha * (1 + 0 * 0) + (1 - alpha) * (accel_angles_deg 0 0 1).1 from rfl,
      accel_angles_deg_level] at h1
  unfold alpha at h1
  norm_num at h1

/-- C7 amended: calling the filter update with `gx = gy = 0` and `dt = 0`
leaves `(roll, pitch)` unchanged when the state already equals the
accelerometer-only tilt estimate of the same static input: the accelerometer
estimate is the fixed point of the zero-gyro blend. -/
theorem C7_fixed_point (roll pitch ax ay az : ℝ)
    (h : (roll, pitch) = accel_angles_deg ax ay az) :
    filter_update roll pitch ax ay az 0 0 0 = (roll, pitch) := by
  have h1 : (accel_angles_deg ax ay az).1 = roll := by rw [← h]
  have h2 : (accel_angles_deg ax ay az).2 = pitch := by rw [← h]
  simp only [filter_update, alpha, Prod.mk.injEq]
  rw [h1, h2]
  constructor <;> ring

/-- C7 witness: at the level input `(ax, ay, az) = (0, 0, 1)` and state
`(0, 0)` the hypothesis holds and the update fixes the state. -/
theorem C7_fixed_point_witness :
    ((0 : ℝ), (0 : ℝ)) = accel_angles_deg 0 0 1 ∧
    filter_update 0 0 0 0 1 0 0 0 = (0, 0) :=
  ⟨accel_angles_deg_level.symm,
   C7_fixed_point 0 0 0 0 1 accel_angles_deg_level.symm⟩

/- ------------------------------------------------------------------ -/
/- Write counter and flush schedule (src lines 64-65, 93-96)          -/
/- ------------------------------------------------------------------ -/

/-- Embedding of `flush_every = 25` (src line 64). -/
def flush_every : ℕ := 25

/-- State of the log writer: the running write counter `line_count`
(src line 65) and the number of flush operations performed so far. -/
structure WriterState where
  line_count : ℕ
  flushes : ℕ

/-- Embedding of the per-iteration write bookkeeping, src lines 93-96: one
record is written, `line_count += 1`, and a flush happens exactly when
`line_count % flush_every == 0`. -/
def writeStep (s : WriterState) : WriterState :=
  if (s.line_count + 1) % flush_every = 0
  then ⟨s.line_count + 1, s.flushes + 1⟩
  else ⟨s.line_count + 1, s.flushes⟩

/-- The writer state after `n` loop iterations, starting from
`line_count = 0` and no flushes (src line 65). -/
def runWriter : ℕ → WriterState
  | 0 => ⟨0, 0⟩
  | n + 1 => writeStep (runWriter n)

lemma runWriter_line_count (n : ℕ) : (runWriter n).line_count = n := by
  induction n with
  | zero => rfl
  | succ k ih =>
    simp only [runWriter, writeStep, ih]
    by_cases h : (k + 1) % flush_every = 0
    · rw [if_pos h]
    · rw [if_neg h]

lemma runWriter_flushes (n : ℕ) : (runWriter n).flushes = n / 25 := by
  induction n with
  | zero => rfl
  | succ k ih =>
    simp only [runWriter, writeStep, runWriter_line_count k, ih]
    by_cases h : (k + 1) % flush_every = 0
    · rw [if_pos h]
      have h25 : (k + 1) % 25 = 0 := h
      show k / 25 + 1 = (k + 1) / 25
      omega
    · rw [if_neg h]
      have h25 : (k + 1) % 25 ≠ 0 := h
      show k / 25 = (k + 1) / 25
      omega

/- ------------------------------------------------------------------ -/
/- C6                                                                  -/
/- ------------------------------------------------------------------ -/

/-- C6: after `N ≥ 1` iterations exactly `⌊N / 25⌋` flushes have occurred;
iteration `N` itself flushes exactly when `N` is a multiple of `25`
(so on iterations 25, 50, 75, ...), and no flush has occurred at
iteration 0. -/
theorem C6_flush_schedule (N : ℕ) (hN : 1 ≤ N) :
    (runWriter N).flushes = N / 25 ∧
    ((runWriter N).flushes = (runWriter (N - 1)).flushes + 1 ↔ N % 25 = 0) ∧
    (runWriter 0).flushes = 0 := by
  refine ⟨runWriter_flushes N, ?_, rfl⟩
  rw [runWriter_flushes N, runWriter_flushes (N - 1)]
  omega

/-- C6 witness: the flush-schedule theorem instantiated at `N = 25`. -/
theorem C6_flush_schedule_witness :
    1 ≤ 25 ∧
    ((runWriter 25).flushes = 25 / 25 ∧
     ((runWriter 25).flushes = (runWriter (25 - 1)).flushes + 1 ↔ 25 % 25 = 0) ∧
     (runWriter 0).flushes = 0) :=
  ⟨by norm_num, C6_flush_schedule 25 (by norm_num)⟩

/- ------------------------------------------------------------------ -/
/- C2 and C8                                                           -/
/- ------------------------------------------------------------------ -/

/-- C2: the altitude conversion of src line 81 has no sentinel fallback for
a degenerate pressure ratio: at `p = -1`, `p0 = 1013.25` the float power
`pow(p/p0, 1/5.255)` has a negative base and a fractional exponent, so the
conversion is undefined (it raises, aborting the loop) instead of producing
an "invalid altitude" sentinel value for the sample. -/
theorem C2_no_sentinel_for_negative_pressure :
    alt_mChecked (-1) 1013.25 = none := by
  unfold alt_mChecked
  rw [if_neg (by norm_num : ¬ ((1013.25 : ℝ) = 0)),
      if_neg (by norm_num : ¬ ((0 : ℝ) ≤ (-1) / 1013.25))]

/-- C8: startup performs no baseline validation: with a captured baseline
reading `p0 = 0 ≤ 0` the startup sequence still succeeds (the logging loop
is entered), and the first altitude conversion in the loop is then
undefined (division by the zero baseline), so the system neither terminates
before the loop nor maintains the loop invariant `p0 > 0`. -/
theorem C8_no_baseline_validation :
    startup 0 0 0 1 = some (0, accel_angles_deg 0 0 1) ∧
    alt_mChecked 1013.25 0 = none := by
  refine ⟨rfl, ?_⟩
  unfold alt_mChecked
  rw [if_pos rfl]

/- ------------------------------------------------------------------ -/
/- CSV formatting (src lines 61-62 and 93)                             -/
/- ------------------------------------------------------------------ -/

/-- Round half to even, the rounding used by the float `.Nf` format
specifier of the source's f-string: nearest integer, ties to the even
integer. Works on the rational value of the float being formatted. -/
def rhe (q : ℚ) : ℤ :=
  if q - ⌊q⌋ < 1 / 2 then ⌊q⌋
  else if 1 / 2 < q - ⌊q⌋ then ⌊q⌋ + 1
  else if ⌊q⌋ % 2 = 0 then ⌊q⌋ else ⌊q⌋ + 1

/-- The low `p` decimal digits of `n`, zero-padded to exactly `p`
characters, most significant first. -/
def padDigits : ℕ → ℕ → List Char
  | 0, _ => []
  | p + 1, n => padDigits p (n / 10) ++ [Nat.digitChar (n % 10)]

/-- Decimal digits of `n`, most significant first (no padding). -/
def natChars (n : ℕ) : List Char :=
  if h : n < 10 then [Nat.digitChar n]
  else natChars (n / 10) ++ [Nat.digitChar (n % 10)]
termination_by n
decreasing_by omega

/-- Model of the fixed-point float format specifier of the source's
f-string (`.2f` for `p = 2`, `.3f` for `p = 3`) applied to the rational
value `x` of the formatted float: round `x * 10^p` half-to-even, then
render sign, integer digits, a dot, and exactly `p` fractional digits. -/
def fmtFixed (p : ℕ) (x : ℚ) : String :=
  (if rhe (x * 10 ^ p) < 0 then "-" else "")
    ++ String.mk (natChars ((rhe (x * 10 ^ p)).natAbs / 10 ^ p))
    ++ "." ++ String.mk (padDigits p ((rhe (x * 10 ^ p)).natAbs % 10 ^ p))

/-- The header row written exactly once at file creation (src line 62). -/
def headerLine : String := "alt_m,accel_g,roll_deg,pitch_deg\n"

/-- Embedding of the data-row f-string of src line 93: altitude to 2
decimals, g-force to 3 decimals, roll and pitch to 2 decimals,
comma-separated, LF-terminated. -/
def csvLine (alt ag roll pitch : ℚ) : String :=
  fmtFixed 2 alt ++ "," ++ fmtFixed 3 ag ++ "," ++ fmtFixed 2 roll ++ ","
    ++ fmtFixed 2 pitch ++ "\n"

/-- The data lines appended by the loop, one `csvLine` per iteration. -/
def logLines : List (ℚ × ℚ × ℚ × ℚ) → String
  | [] => ""
  | r :: rs => csvLine r.1 r.2.1 r.2.2.1 r.2.2.2 ++ logLines rs

/-- The whole log file after a list of iterations: the header written at
creation (src lines 61-62) followed by one data line per iteration
(src line 93). -/
def logFile (recs : List (ℚ × ℚ × ℚ × ℚ)) : String :=
  headerLine ++ logLines recs

/- ------------------------------------------------------------------ -/
/- String helper lemmas                                                -/
/- ------------------------------------------------------------------ -/

lemma data_append (s t : String) : (s ++ t).data = s.data ++ t.data := rfl

lemma str_append_assoc (a b c : String) : a ++ b ++ c = a ++ (b ++ c) :=
  congrArg String.mk (List.append_assoc a.data b.data c.data)

lemma digitChar_isDigit : ∀ m, m < 10 → (Nat.digitChar m).isDigit = true := by
  decide

lemma padDigits_length (p : ℕ) : ∀ n, (padDigits p n).length = p := by
  induction p with
  | zero => intro n; rfl
  | succ k ih => intro n; simp [padDigits, ih]

lemma padDigits_isDigit (p : ℕ) : ∀ n ch, ch ∈ padDigits p n → ch.isDigit = true := by
  induction p with
  | zero => intro n ch h; simp [padDigits] at h
  | succ k ih =>
    intro n ch h
    rcases List.mem_append.mp h with h1 | h1
    · exact ih _ ch h1
    · have he : ch = Nat.digitChar (n % 10) := by simpa using h1
      rw [he]
      exact digitChar_isDigit _ (Nat.mod_lt _ (by norm_num))

lemma natChars_isDigit (n : ℕ) : ∀ ch ∈ natChars n, ch.isDigit = true := by
  induction n using Nat.strong_induction_on with
  | _ n ih =>
    intro ch hch
    rw [natChars] at hch
    by_cases h : n < 10
    · rw [dif_pos h] at hch
      have he : ch = Nat.digitChar n := by simpa using hch
      rw [he]
      exact digitChar_isDigit _ h
    · rw [dif_neg h] at hch
      rcases List.mem_append.mp hch with h1 | h1
      · exact ih (n / 10) (by omega) ch h1
      · have he : ch = Nat.digitChar (n % 10) := by simpa using h1
        rw [he]
        exact digitChar_isDigit _ (Nat.mod_lt _ (by norm_num))

lemma fmtFixed_data (p : ℕ) (x : ℚ) :
    (fmtFixed p x).data
      = (if rhe (x * 10 ^ p) < 0 then "-" else "").data
        ++ natChars ((rhe (x * 10 ^ p)).natAbs / 10 ^ p)
        ++ ['.'] ++ padDigits p ((rhe (x * 10 ^ p)).natAbs % 10 ^ p) := rfl

lemma fmtFixed_chars (p : ℕ) (x : ℚ) :
    ∀ ch ∈ (fmtFixed p x).data, ch.isDigit = true ∨ ch = '-' ∨ ch = '.' := by
  intro ch hch
  rw [fmtFixed_data] at hch
  rcases List.mem_append.mp hch with h1 | h1
  swap
  · exact Or.inl (padDigits_isDigit _ _ ch h1)
  rcases List.mem_append.mp h1 with h2 | h2
  swap
  · exact Or.inr (Or.inr (by simpa using h2))
  rcases List.mem_append.mp h2 with h3 | h3
  swap
  · exact Or.inl (natChars_isDigit _ ch h3)
  by_cases hs : rhe (x * 10 ^ p) < 0
  · rw [if_pos hs] at h3
    exact Or.inr (Or.inl (by simpa using h3))
  · rw [if_neg hs] at h3
    simp at h3

lemma fmtFixed_no_comma (p : ℕ) (x : ℚ) : ',' ∉ (fmtFixed p x).data := by
  intro h
  rcases fmtFixed_chars p x ',' h with h1 | h1 | h1
  · exact absurd h1 (by decide)
  · exact absurd h1 (by decide)
  · exact absurd h1 (by decide)

lemma csvLine_data (a b c d : ℚ) :
    (csvLine a b c d).data
      = (fmtFixed 2 a).data ++ [','] ++ (fmtFixed 3 b).data ++ [',']
        ++ (fmtFixed 2 c).data ++ [','] ++ (fmtFixed 2 d).data ++ ['\n'] := rfl

lemma fmtFixed_last (p : ℕ) (x : ℚ) :
    ∃ l0 ch, (fmtFixed (p + 1) x).data = l0 ++ [ch] ∧ ch.isDigit = true := by
  refine ⟨(if rhe (x * 10 ^ (p + 1)) < 0 then "-" else "").data
      ++ natChars ((rhe (x * 10 ^ (p + 1))).natAbs / 10 ^ (p + 1))
      ++ ['.'] ++ padDigits p ((rhe (x * 10 ^ (p + 1))).natAbs % 10 ^ (p + 1) / 10),
    Nat.digitChar ((rhe (x * 10 ^ (p + 1))).natAbs % 10 ^ (p + 1) % 10), ?_,
    digitChar_isDigit _ (Nat.mod_lt _ (by norm_num))⟩
  rw [fmtFixed_data]
  show _ ++ (padDigits p _ ++ [_]) = _
  rw [← List.append_assoc]

lemma logLines_append_single (recs : List (ℚ × ℚ × ℚ × ℚ)) (r : ℚ × ℚ × ℚ × ℚ) :
    logLines (recs ++ [r]) = logLines recs ++ csvLine r.1 r.2.1 r.2.2.1 r.2.2.2 := by
  induction recs with
  | nil =>
    show csvLine _ _ _ _ ++ "" = "" ++ csvLine _ _ _ _
    rw [String.append_empty, String.empty_append]
  | cons x xs ih =>
    show csvLine _ _ _ _ ++ logLines (xs ++ [r]) = _ ++ _
    rw [ih, ← str_append_assoc]
    rfl

/- ------------------------------------------------------------------ -/
/- C9                                                                  -/
/- ------------------------------------------------------------------ -/

/-- C9: the log file begins with the header line
(alt_m,accel_g,roll_deg,pitch_deg) written once at creation; every
iteration appends exactly one data line; a data line is the four
fixed-point fields (first to 2 decimals, second to 3, third and fourth
to 2) joined by commas and terminated by a single LF; every fixed-point
field ends in exactly `p` digit characters after a dot; the line holds
exactly 3 commas; and the character before the final LF is a digit (no
trailing comma). -/
theorem C9_log_format (recs : List (ℚ × ℚ × ℚ × ℚ)) (a b c d : ℚ) :
    logFile [] = "alt_m,accel_g,roll_deg,pitch_deg\n" ∧
    logFile (recs ++ [(a, b, c, d)]) = logFile recs ++ csvLine a b c d ∧
    csvLine a b c d
      = fmtFixed 2 a ++ "," ++ fmtFixed 3 b ++ "," ++ fmtFixed 2 c ++ ","
        ++ fmtFixed 2 d ++ "\n" ∧
    (∀ (p : ℕ) (x : ℚ), ∃ pre fr, fmtFixed p x = pre ++ "." ++ String.mk fr ∧
      fr.length = p ∧ ∀ ch ∈ fr, ch.isDigit = true) ∧
    ((csvLine a b c d).data).count ',' = 3 ∧
    (∃ l ch, (csvLine a b c d).data = l ++ [ch, '\n'] ∧ ch.isDigit = true) := by
  refine ⟨?_, ?_, rfl, ?_, ?_, ?_⟩
  · show headerLine ++ "" = _
    rw [String.append_empty]
    rfl
  · unfold logFile
    rw [str_append_assoc, logLines_append_single]
  · intro p x
    exact ⟨(if rhe (x * 10 ^ p) < 0 then "-" else "")
        ++ String.mk (natChars ((rhe (x * 10 ^ p)).natAbs / 10 ^ p)),
      padDigits p ((rhe (x * 10 ^ p)).natAbs % 10 ^ p), rfl,
      padDigits_length p _, padDigits_isDigit p _⟩
  · rw [csvLine_data]
    repeat rw [List.count_append]
    rw [List.count_eq_zero.mpr (fmtFixed_no_comma 2 a),
        List.count_eq_zero.mpr (fmtFixed_no_comma 3 b),
        List.count_eq_zero.mpr (fmtFixed_no_comma 2 c),
        List.count_eq_zero.mpr (fmtFixed_no_comma 2 d)]
    rfl
  · obtain ⟨l0, ch, h, hd⟩ := fmtFixed_last 1 d
    refine ⟨(fmtFixed 2 a).data ++ [','] ++ (fmtFixed 3 b).data ++ [',']
        ++ (fmtFixed 2 c).data ++ [','] ++ l0, ch, ?_, hd⟩
    rw [csvLine_data]
    have h2 : (fmtFixed 2 d).data = l0 ++ [ch] := h
    rw [h2]
    simp [List.append_assoc]

/- ------------------------------------------------------------------ -/
/- Loop step (src lines 72-96) and C10                                 -/
/- ------------------------------------------------------------------ -/

/-- The mutable state read and written by one loop iteration: the two
attitude scalars and the write counter. -/
structure LoopState where
  roll : ℝ
  pitch : ℝ
  line_count : ℕ

/-- One iteration's sensor inputs: acceleration triple (m/s^2), gyro
triple (deg/s), pressure (hPa). -/
structure Sample where
  ax : ℝ
  ay : ℝ
  az : ℝ
  gx : ℝ
  gy : ℝ
  gz : ℝ
  p : ℝ

/-- Embedding of one body of the logging loop, src lines 72-96: compute
relative altitude, run the complementary filter, compute the acceleration
magnitude in g, bump the write counter and decide the flush. Returns the
new state, the record quadruple (alt_m, accel_g, roll, pitch) that the
iteration formats into its CSV line, and whether this iteration flushes. -/
noncomputable def loopStep (p0 : ℝ) (s : LoopState) (m : Sample) (dt : ℝ) :
    LoopState × (ℝ × ℝ × ℝ × ℝ) × Bool :=
  let altv := alt_m m.p p0
  let racc := accel_angles_deg m.ax m.ay m.az
  let roll := alpha * (s.roll + m.gx * dt) + (1 - alpha) * racc.1
  let pitch := alpha * (s.pitch + m.gy * dt) + (1 - alpha) * racc.2
  let accel_g := Real.sqrt (m.ax * m.ax + m.ay * m.ay + m.az * m.az) / 9.80665
  let lc := s.line_count + 1
  (⟨roll, pitch, lc⟩, (altv, accel_g, roll, pitch), lc % flush_every == 0)

/-- C10: one loop iteration is deterministic: identical previous state,
identical sample, identical baseline and identical dt produce identical
new state, identical record quadruple and identical flush decision, and
identical record quadruples format to the identical CSV line. -/
theorem C10_loop_deterministic (p01 p02 dt1 dt2 : ℝ) (s1 s2 : LoopState)
    (m1 m2 : Sample) (hp : p01 = p02) (hs : s1 = s2) (hm : m1 = m2)
    (hdt : dt1 = dt2) :
    loopStep p01 s1 m1 dt1 = loopStep p02 s2 m2 dt2 ∧
    ∀ q r : ℚ × ℚ × ℚ × ℚ, q = r →
      csvLine q.1 q.2.1 q.2.2.1 q.2.2.2 = csvLine r.1 r.2.1 r.2.2.1 r.2.2.2 := by
  subst hp
  subst hs
  subst hm
  subst hdt
  exact ⟨rfl, fun q r hqr => by rw [hqr]⟩

/-- C10 witness: determinism instantiated at a concrete level sample and
state. -/
theorem C10_loop_deterministic_witness :
    (1013.25 : ℝ) = 1013.25 ∧ (0.05 : ℝ) = 0.05 ∧
    (loopStep 1013.25 ⟨0, 0, 0⟩ ⟨0, 0, 1, 0, 0, 0, 1013.25⟩ 0.05
        = loopStep 1013.25 ⟨0, 0, 0⟩ ⟨0, 0, 1, 0, 0, 0, 1013.25⟩ 0.05 ∧
      ∀ q r : ℚ × ℚ × ℚ × ℚ, q = r →
        csvLine q.1 q.2.1 q.2.2.1 q.2.2.2 = csvLine r.1 r.2.1 r.2.2.1 r.2.2.2) :=
  ⟨rfl, rfl,
   C10_loop_deterministic 1013.25 1013.25 0.05 0.05 ⟨0, 0, 0⟩ ⟨0, 0, 0⟩
     ⟨0, 0, 1, 0, 0, 0, 1013.25⟩ ⟨0, 0, 1, 0, 0, 0, 1013.25⟩ rfl rfl rfl rfl⟩

end AlphaRocket
